import Mathlib

/- Shallow embedding of `src/generator/views/metric_definitions_view.py`:
the `MetricDefinitionsView` class and its LookML generation.  Python dicts
whose keys are fixed by the source become Lean structures; the metric-hub
configuration registry and the base-table resolver (external collaborators)
become explicit read-only parameters.  `Option` models Python `None` (and,
for `get_dimensions`, the `AttributeError` raised on a `None` lookup). -/

/-- Python string truthiness fallback `a or b`: the empty string is falsy
(this also models an absent/`None` optional string field as `""`). -/
def pyOr (a b : String) : String := if a = "" then b else a

/-- A metric-hub data source reference (`metric.data_source`). -/
structure DataSource where
  name : String
  deriving DecidableEq, Repr

/-- A metric-hub metric definition (spec section 3).  `statistics` keeps the
ordered statistic slugs (`metric.statistics.items()` keys); optional string
fields use `""` for an absent value, matching Python truthiness tests. -/
structure MetricDefinition where
  select_expression : String := ""
  data_source : DataSource := { name := "" }
  type : String := ""
  friendly_name : String := ""
  description : String := ""
  statistics : List String := []
  deriving DecidableEq, Repr

/-- A metric-hub data source definition: optional override column names for
submission date and client id (`""` models an absent override). -/
structure DataSourceDefinition where
  submission_date_column : String := ""
  client_id_column : String := ""
  deriving DecidableEq, Repr

/-- The `metrics` section of a namespace's platform definitions: the ordered
slug-to-metric mapping `namespace_definitions.metrics.definitions`. -/
structure MetricsSection where
  definitions : List (String × MetricDefinition)
  deriving DecidableEq, Repr

/-- A namespace's platform definitions as returned by
`get_platform_definitions`. -/
structure PlatformDefinitions where
  metrics : MetricsSection
  deriving DecidableEq, Repr

/-- The metric-hub configuration registry (`MetricsConfigLoader.configs`), an
external read-only lookup service (spec section 6).  `render` is the
template-rendering primitive `get_env().from_string(e).render()`, treated as
an opaque total text transformation. -/
structure ConfigLoader where
  get_platform_definitions : String → Option PlatformDefinitions
  get_data_source_definition : String → String → Option DataSourceDefinition
  get_data_source_sql : String → String → String
  get_metric_definition : String → String → Option MetricDefinition
  render : String → String

/-- A dimension field descriptor; the keys this view reads or writes, with
`""` for keys the source leaves absent. -/
structure Dimension where
  name : String := ""
  type : String := ""
  sql : String := ""
  label : String := ""
  primary_key : String := ""
  group_label : String := ""
  description : String := ""
  deriving DecidableEq, Repr

/-- A dimension-group field descriptor. -/
structure DimensionGroup where
  name : String := ""
  type : String := ""
  sql : String := ""
  label : String := ""
  group_label : String := ""
  timeframes : List String := []
  deriving DecidableEq, Repr

/-- A measure field descriptor. -/
structure Measure where
  name : String := ""
  type : String := ""
  sql : String := ""
  label : String := ""
  group_label : String := ""
  description : String := ""
  deriving DecidableEq, Repr

/-- A field set descriptor (`_get_sets` output entries). -/
structure SetDefinition where
  name : String
  fields : List String
  deriving DecidableEq, Repr

/-- One allowed value of a parameter descriptor. -/
structure AllowedValue where
  label : String
  value : String
  deriving DecidableEq, Repr

/-- A parameter descriptor (`_get_parameters` output entries). -/
structure ParameterDefinition where
  name : String
  label : String
  type : String
  default_value : String
  allowed_values : List AllowedValue
  deriving DecidableEq, Repr

/-- The view record assembled by `to_lookml` (`view_defn`): name, derived
table SQL, and the field lists, in the source's key order. -/
structure ViewDefinition where
  name : String
  derived_table_sql : String
  dimensions : List Dimension
  dimension_groups : List DimensionGroup
  measures : List Measure
  sets : List SetDefinition
  parameters : List ParameterDefinition
  deriving DecidableEq, Repr

/-- A table reference `{table, channel}` from the view's `tables` list. -/
structure TableRef where
  table : String := ""
  channel : String := ""
  deriving DecidableEq, Repr

/-- Modelled from the spec: the base-table resolver result.  `TableView` and
its `to_lookml` are external collaborators (the `table_view` module is not in
the staged source); per spec section 6 the resolver returns a record exposing
`views[0].dimensions` and `views[0].dimension_groups`, lists of field
descriptors. -/
structure BaseViewLookml where
  dimensions : List Dimension
  dimension_groups : List DimensionGroup
  deriving DecidableEq, Repr

/-- Modelled from the spec: the base-table resolver itself, a black box from
namespace, view name and table references to the base view's field
descriptors (`TableView(namespace, name, tables).to_lookml(...)`). -/
def TableViewResolver : Type := String → String → List TableRef → BaseViewLookml

/-- Split a character list on underscores (the word separator of metric
slugs); a helper for the slug-to-title transform. -/
def splitOnUnderscore : List Char → List (List Char)
  | [] => [[]]
  | '_' :: t => [] :: splitOnUnderscore t
  | c :: t =>
    match splitOnUnderscore t with
    | [] => [[c]]
    | w :: ws => (c :: w) :: ws

/-- Modelled from the spec: `lookml_utils.slug_to_title`, the slug-to-title
transform used as the dimension label fallback (`lookml_utils` is not in the
staged source; the spec calls it a generic naming/formatting utility): the
underscore-separated words of the slug, capitalized and joined by spaces. -/
def slug_to_title (slug : String) : String :=
  String.intercalate " "
    ((splitOnUnderscore slug.data).map fun w => (String.mk w).capitalize)

/-- `re.sub("^metric_definitions_", "", self.name)` (line 51): strip the
anchored fixed tag from the view name to obtain the data source identifier. -/
def dataSourceNameOf (name : String) : String :=
  if "metric_definitions_".data.isPrefixOf name.data then
    name.drop "metric_definitions_".length
  else name

/-- Replace every occurrence of the literal `dataset` placeholder in a
character list by `ds`; a helper for `formatDataset`. -/
def formatDatasetChars (ds : List Char) : List Char → List Char
  | '\x7b' :: 'd' :: 'a' :: 't' :: 'a' :: 's' :: 'e' :: 't' :: '\x7d' :: rest =>
    ds ++ formatDatasetChars ds rest
  | c :: rest => c :: formatDatasetChars ds rest
  | [] => []

/-- Python `str.format` with the single `dataset` key as used at line 160:
replace the `dataset` placeholder in the data source SQL template with the
target namespace. -/
def formatDataset (template ds : String) : String :=
  String.mk (formatDatasetChars ds.data template.data)

/-- The rendered SQL column fragments, one
`<rendered select expression> AS <slug>,\n` per applicable metric
(`metric_definitions`, lines 60-68). -/
def metricDefinitionsSqlOf (cfg : ConfigLoader)
    (defs : List (String × MetricDefinition)) (data_source_name : String) :
    List String :=
  (defs.filter fun p =>
      p.2.select_expression != "" && p.2.data_source.name == data_source_name &&
        p.2.type != "histogram").map
    fun p => cfg.render p.2.select_expression ++ " AS " ++ p.1 ++ ",\n"

/-- The base-field exclusion list (`ignore_base_fields`, lines 79-90): four
fixed names plus the applicable metric slugs. -/
def ignoreBaseFieldsOf (defs : List (String × MetricDefinition))
    (data_source_name : String) : List String :=
  ["client_id", "submission_date", "submission", "first_run"] ++
    (defs.filter fun p =>
        p.2.select_expression != "" && p.2.data_source.name == data_source_name &&
          p.2.type != "histogram").map
      fun p => p.1

/-- The fixed leading `client_id` dimension (lines 211-219). -/
def clientIdDimension : Dimension :=
  { name := "client_id", type := "string",
    sql := "SAFE_CAST($\x7bTABLE\x7d.client_id AS STRING)",
    label := "Client ID", primary_key := "yes", group_label := "Base Fields",
    description := "Unique client identifier" }

/-- The dimension derived from one metric definition (lines 221-229). -/
def metricDimension (metric_slug : String) (metric : MetricDefinition) : Dimension :=
  { name := metric_slug, group_label := "Metrics",
    label := pyOr metric.friendly_name (slug_to_title metric_slug),
    description := pyOr metric.description "",
    type := "number",
    sql := "$\x7bTABLE\x7d." ++ metric_slug }

/-- The metric-derived dimension list built from a namespace's metric
definitions (the body of `get_dimensions`, lines 210-234; `to_lookml` obtains
the same list through `self.get_dimensions()` under the guard that made the
registry lookup succeed). -/
def dimensionsFrom (defs : List (String × MetricDefinition))
    (data_source_name : String) : List Dimension :=
  [clientIdDimension] ++
    (defs.filter fun p =>
        p.2.select_expression != "" && p.2.data_source.name == data_source_name &&
          p.2.type != "histogram").map
      fun p => metricDimension p.1 p.2

/-- `MetricDefinitionsView.get_dimensions` (lines 200-234).  `none` models the
`AttributeError` raised by `namespace_definitions.metrics` when
`get_platform_definitions` returned `None` (there is no guard here). -/
def get_dimensions (cfg : ConfigLoader) (ns name : String) :
    Option (List Dimension) :=
  match cfg.get_platform_definitions ns with
  | none => none
  | some namespace_definitions =>
    some (dimensionsFrom namespace_definitions.metrics.definitions (dataSourceNameOf name))

/-- `MetricDefinitionsView.get_dimension_groups` (lines 236-254). -/
def get_dimension_groups : List DimensionGroup :=
  [{ name := "submission", type := "time", group_label := "Base Fields",
     sql := "CAST($\x7bTABLE\x7d.analysis_basis AS TIMESTAMP)",
     label := "Submission",
     timeframes := ["raw", "date", "week", "month", "quarter", "year"] }]

/-- `MetricDefinitionsView.get_measures` (lines 292-328): one measure per
recognized statistic slug (`sum`, `client_count`) of each dimension whose
name resolves to a metric with a non-empty statistics mapping. -/
def get_measures (cfg : ConfigLoader) (ns : String)
    (dimensions : List Dimension) : List Measure :=
  dimensions.flatMap fun dimension =>
    match cfg.get_metric_definition dimension.name ns with
    | none => []
    | some metric =>
      if metric.statistics != [] then
        metric.statistics.flatMap fun statistic_slug =>
          if statistic_slug == "sum" then
            [{ name := dimension.name ++ "_" ++ statistic_slug,
               type := "sum",
               sql := "$\x7bTABLE\x7d." ++ dimension.name,
               label := dimension.label ++ " Sum",
               group_label := "Statistics",
               description := "Sum of " ++ dimension.label }]
          else if statistic_slug == "client_count" then
            [{ name := dimension.name ++ "_" ++ statistic_slug,
               type := "count_distinct",
               label := dimension.label ++ " Client Count",
               group_label := "Statistics",
               sql := "IF(SAFE_CAST($\x7bTABLE\x7d." ++ dimension.name ++
                 " AS BOOL), $\x7bTABLE\x7d.client_id, SAFE_CAST(NULL AS STRING))",
               description := "Number of clients with " ++ dimension.label }]
          else []
      else []

/-- The single `metrics` set built from a dimension list (the body of
`_get_sets`, lines 256-272): every dimension name except `client_id`, then
every measure name. -/
def setsFrom (cfg : ConfigLoader) (ns : String) (dimensions : List Dimension) :
    List SetDefinition :=
  [{ name := "metrics",
     fields :=
       ((dimensions.filter fun dimension => dimension.name != "client_id").map
           fun dimension => dimension.name) ++
         (get_measures cfg ns dimensions).map fun measure => measure.name }]

/-- `MetricDefinitionsView._get_sets` (lines 256-272): recomputes
`self.get_dimensions()` from the registry, so it fails (`none`) exactly where
`get_dimensions` does. -/
def _get_sets (cfg : ConfigLoader) (ns name : String) :
    Option (List SetDefinition) :=
  match get_dimensions cfg ns name with
  | none => none
  | some dimensions => some (setsFrom cfg ns dimensions)

/-- `MetricDefinitionsView._get_parameters` (lines 274-290): the single fixed
`aggregate_metrics_by` parameter descriptor. -/
def _get_parameters : List ParameterDefinition :=
  [{ name := "aggregate_metrics_by",
     label := "Aggregate Client Metrics Per",
     type := "unquoted",
     default_value := "day",
     allowed_values :=
       [{ label := "Per Day", value := "day" },
        { label := "Per Week", value := "week" },
        { label := "Per Month", value := "month" },
        { label := "Per Quarter", value := "quarter" },
        { label := "Per Year", value := "year" },
        { label := "Overall", value := "overall" }] }]

/-- The `join_base_view` f-string (lines 109-121), byte for byte (`\x7b` and
`\x7d` are the literal braces of the Looker filter tags). -/
def joinBaseViewSql (base_table : String)
    (data_source_definition : DataSourceDefinition) : String :=
  "\n            INNER JOIN " ++ base_table ++
    " base\n            ON\n                base.submission_date = m." ++
    pyOr data_source_definition.submission_date_column "submission_date" ++
    " AND\n                base.client_id = m." ++
    pyOr data_source_definition.client_id_column "client_id" ++
    "\n            WHERE base.submission_date BETWEEN\n                SAFE_CAST(\n                    \x7b% date_start " ++
    pyOr data_source_definition.submission_date_column "submission_date" ++
    " %\x7d AS DATE\n                ) AND\n                SAFE_CAST(\n                    \x7b% date_end " ++
    pyOr data_source_definition.submission_date_column "submission_date" ++
    " %\x7d AS DATE\n                )\n            "

/-- The `analysis_basis` template conditional of the derived-table SQL
(lines 129-154), byte for byte: explicit branches keyed on
`aggregate_metrics_by` for day, week, month, quarter and year, then an else
branch yielding NULL. -/
def analysisBasisSql (sub_col : String) : String :=
  "\x7b% if aggregate_metrics_by._parameter_value == 'day' %\x7d\n                m." ++
    sub_col ++
    " AS analysis_basis\n                \x7b% elsif aggregate_metrics_by._parameter_value == 'week'  %\x7d\n                (FORMAT_DATE(\n                    '%F',\n                    DATE_TRUNC(m." ++
    sub_col ++
    ",\n                    WEEK(MONDAY)))\n                ) AS analysis_basis\n                \x7b% elsif aggregate_metrics_by._parameter_value == 'month'  %\x7d\n                (FORMAT_DATE(\n                    '%Y-%m',\n                    m." ++
    sub_col ++
    ")\n                ) AS analysis_basis\n                \x7b% elsif aggregate_metrics_by._parameter_value == 'quarter'  %\x7d\n                (FORMAT_DATE(\n                    '%Y-%m',\n                    DATE_TRUNC(m." ++
    sub_col ++
    ",\n                    QUARTER))\n                ) AS analysis_basis\n                \x7b% elsif aggregate_metrics_by._parameter_value == 'year'  %\x7d\n                (EXTRACT(\n                    YEAR FROM m." ++
    sub_col ++
    ")\n                ) AS analysis_basis\n                \x7b% else %\x7d\n                NULL as analysis_basis\n                \x7b% endif %\x7d"

/-- The date-range bounding clause tail of the derived-table SQL
(lines 164-170): it always bounds the literal column `m.submission_date`;
the configured submission-date column appears only inside the
`date_start`/`date_end` filter tags. -/
def dateBoundSql (sub_col : String) : String :=
  " m.submission_date BETWEEN\n                SAFE_CAST(\n                    \x7b% date_start " ++
    sub_col ++
    " %\x7d AS DATE\n                ) AND\n                SAFE_CAST(\n                    \x7b% date_end " ++
    sub_col ++
    " %\x7d AS DATE\n                )"

/-- The derived-table SQL f-string (lines 124-175), byte for byte: the
`SELECT` list (metric columns, base fields joined with a `base.` separator,
`client_id`, the `analysis_basis` conditional), the formatted `FROM`, the
optional join, the `WHERE`/`AND` date bound, and the `GROUP BY`. -/
def derivedTableSql (metric_definitions base_view_fields : List String)
    (data_source_definition : DataSourceDefinition)
    (from_sql join_base_view : String) : String :=
  "\n            SELECT\n                " ++ String.join metric_definitions ++
    "\n                " ++ String.intercalate "base." base_view_fields ++
    "\n                m." ++
    pyOr data_source_definition.client_id_column "client_id" ++
    " AS client_id,\n                " ++
    analysisBasisSql (pyOr data_source_definition.submission_date_column "submission_date") ++
    "\n            FROM\n                " ++ from_sql ++
    "\n            AS m\n            " ++ join_base_view ++
    "\n            " ++ (if join_base_view != "" then "AND" else "WHERE") ++
    dateBoundSql (pyOr data_source_definition.submission_date_column "submission_date") ++
    "\n            GROUP BY\n                " ++ String.join base_view_fields ++
    "\n                client_id,\n                analysis_basis\n            "

/-- The optional base view record (lines 94-101): for a non-empty table
list, resolve a `TableView` named `base_view` over the first entry's table,
with channel `release`. -/
def baseViewLookmlOf (tableView : TableViewResolver) (ns : String)
    (tables : List TableRef) : Option BaseViewLookml :=
  match tables with
  | [] => none
  | t :: _ => some (tableView ns "base_view" [{ table := t.table, channel := "release" }])

/-- The `base_view_fields` SQL name fragments (lines 103-107). -/
def baseViewFieldsOf (base_view_lkml : Option BaseViewLookml)
    (ignore_base_fields : List String) : List String :=
  match base_view_lkml with
  | none => []
  | some lkml =>
    (lkml.dimensions.filter fun d => !(ignore_base_fields.contains d.name)).map
      fun d => d.name ++ ",\n"

/-- The `join_base_view` string (empty for an empty table list, the join
clause over the first entry's table otherwise; lines 93, 109-121). -/
def joinBaseViewOf (tables : List TableRef)
    (data_source_definition : DataSourceDefinition) : String :=
  match tables with
  | [] => ""
  | t :: _ => joinBaseViewSql t.table data_source_definition

/-- The final dimension list (lines 178, 181-185): the metric-derived
dimensions, then every non-excluded base dimension stamped with group label
`Base Fields`. -/
def mergedDimensions (dims0 : List Dimension)
    (base_view_lkml : Option BaseViewLookml)
    (ignore_base_fields : List String) : List Dimension :=
  match base_view_lkml with
  | none => dims0
  | some lkml =>
    dims0 ++
      (lkml.dimensions.filter fun d => !(ignore_base_fields.contains d.name)).map
        fun d => { d with group_label := "Base Fields" }

/-- The final dimension-group list (lines 179, 187-190). -/
def mergedDimensionGroups (groups0 : List DimensionGroup)
    (base_view_lkml : Option BaseViewLookml)
    (ignore_base_fields : List String) : List DimensionGroup :=
  match base_view_lkml with
  | none => groups0
  | some lkml =>
    groups0 ++
      (lkml.dimension_groups.filter fun g => !(ignore_base_fields.contains g.name)).map
        fun g => { g with group_label := "Base Fields" }

/-- The view record built by `to_lookml` once all three guards have passed
(lines 77-198), from the matched platform and data source definitions. -/
def buildViewDefinition (cfg : ConfigLoader) (tableView : TableViewResolver)
    (ns name : String) (tables : List TableRef)
    (namespace_definitions : PlatformDefinitions)
    (data_source_definition : DataSourceDefinition) : ViewDefinition :=
  let data_source_name := dataSourceNameOf name
  let metric_definitions :=
    metricDefinitionsSqlOf cfg namespace_definitions.metrics.definitions data_source_name
  let ignore_base_fields :=
    ignoreBaseFieldsOf namespace_definitions.metrics.definitions data_source_name
  let base_view_lkml := baseViewLookmlOf tableView ns tables
  let base_view_fields := baseViewFieldsOf base_view_lkml ignore_base_fields
  let join_base_view := joinBaseViewOf tables data_source_definition
  let from_sql := formatDataset (cfg.get_data_source_sql data_source_name ns) ns
  let dims0 := dimensionsFrom namespace_definitions.metrics.definitions data_source_name
  let dimensions := mergedDimensions dims0 base_view_lkml ignore_base_fields
  let dimension_groups :=
    mergedDimensionGroups get_dimension_groups base_view_lkml ignore_base_fields
  { name := name,
    derived_table_sql :=
      derivedTableSql metric_definitions base_view_fields data_source_definition
        from_sql join_base_view,
    dimensions := dimensions,
    dimension_groups := dimension_groups,
    measures := get_measures cfg ns dimensions,
    sets := setsFrom cfg ns dims0,
    parameters := _get_parameters }

/-- `MetricDefinitionsView.to_lookml` (lines 42-198).  `none` models the empty
record `{}` returned when the namespace has no platform definitions, no
matching data source definition, or an empty applicable-metric list. -/
def to_lookml (cfg : ConfigLoader) (tableView : TableViewResolver)
    (ns name : String) (tables : List TableRef) : Option ViewDefinition :=
  match cfg.get_platform_definitions ns with
  | none => none
  | some namespace_definitions =>
    match cfg.get_data_source_definition (dataSourceNameOf name) ns with
    | none => none
    | some data_source_definition =>
      if metricDefinitionsSqlOf cfg namespace_definitions.metrics.definitions
          (dataSourceNameOf name) = [] then none
      else
        some (buildViewDefinition cfg tableView ns name tables namespace_definitions
          data_source_definition)

/- Derived definitions used by the verification statements. -/

/-- The single-source-of-truth applicable-metric list (spec section 4.2):
metrics with a non-empty select expression, the data source matching the
view's derived identifier, and a type other than histogram. -/
def filteredMetrics (defs : List (String × MetricDefinition))
    (data_source_name : String) : List (String × MetricDefinition) :=
  defs.filter fun p =>
    p.2.select_expression != "" && p.2.data_source.name == data_source_name &&
      p.2.type != "histogram"

/-- The measure emitted for the `sum` statistic of a dimension
(lines 303-313). -/
def sumMeasure (dimension : Dimension) : Measure :=
  { name := dimension.name ++ "_" ++ "sum", type := "sum",
    sql := "$\x7bTABLE\x7d." ++ dimension.name,
    label := dimension.label ++ " Sum", group_label := "Statistics",
    description := "Sum of " ++ dimension.label }

/-- The measure emitted for the `client_count` statistic of a dimension
(lines 314-326). -/
def clientCountMeasure (dimension : Dimension) : Measure :=
  { name := dimension.name ++ "_" ++ "client_count", type := "count_distinct",
    label := dimension.label ++ " Client Count", group_label := "Statistics",
    sql := "IF(SAFE_CAST($\x7bTABLE\x7d." ++ dimension.name ++
      " AS BOOL), $\x7bTABLE\x7d.client_id, SAFE_CAST(NULL AS STRING))",
    description := "Number of clients with " ++ dimension.label }

/-- The measures one statistic slug of one dimension contributes: one for
`sum`, one for `client_count`, none for any other slug. -/
def statisticMeasures (dimension : Dimension) (statistic_slug : String) :
    List Measure :=
  if statistic_slug == "sum" then [sumMeasure dimension]
  else if statistic_slug == "client_count" then [clientCountMeasure dimension]
  else []

/-- Whether `pat` occurs as a contiguous run inside `s`. -/
def hasSubChars (pat s : List Char) : Bool :=
  pat.isPrefixOf s ||
    match s with
    | [] => false
    | _ :: t => hasSubChars pat t

/-- Whether `pat` occurs as a substring of `s` (on the character lists). -/
def containsStr (s pat : String) : Bool := hasSubChars pat.data s.data

/- Concrete fixtures used by the evaluation witnesses and counterexamples. -/

set_option maxRecDepth 100000

/-- A concrete metric on data source `ds1` used by the witnesses. -/
def wMetric : MetricDefinition :=
  { select_expression := "SUM(active_hours_sum)", data_source := { name := "ds1" },
    type := "scalar", friendly_name := "Active Hours",
    description := "Total active hours", statistics := ["sum", "client_count", "median"] }

/-- A concrete histogram metric on data source `ds1` (filtered out). -/
def wHistMetric : MetricDefinition :=
  { select_expression := "SUM(x)", data_source := { name := "ds1" },
    type := "histogram", friendly_name := "Hist", description := "",
    statistics := [] }

/-- A concrete registry for the witnesses: namespace `ns`, one applicable
metric `active_hours` on data source `ds1`. -/
def wCfg : ConfigLoader :=
  { get_platform_definitions := fun ns =>
      if ns == "ns" then
        some { metrics := { definitions := [("active_hours", wMetric)] } }
      else none,
    get_data_source_definition := fun ds ns =>
      if ds == "ds1" && ns == "ns" then
        some { submission_date_column := "", client_id_column := "" }
      else none,
    get_data_source_sql := fun _ _ => "(SELECT * FROM \x7bdataset\x7d.tbl)",
    get_metric_definition := fun slug ns =>
      if slug == "active_hours" && ns == "ns" then some wMetric else none,
    render := fun s => s }

/-- A registry whose only `ds1` metric is a histogram, so the applicable
metric list is empty. -/
def wCfgHist : ConfigLoader :=
  { wCfg with
    get_platform_definitions := fun ns =>
      if ns == "ns" then
        some { metrics := { definitions := [("hist_only", wHistMetric)] } }
      else none }

/-- A concrete base-table resolver: two base dimensions, one of them named
`submission_date` (excluded by the merge). -/
def wResolver : TableViewResolver := fun _ _ _ =>
  { dimensions := [{ name := "country", label := "Country" },
                   { name := "submission_date", label := "Submission Date" }],
    dimension_groups := [] }

/-- The platform definitions `wCfg` serves for namespace `ns`. -/
def wNsDefs : PlatformDefinitions :=
  { metrics := { definitions := [("active_hours", wMetric)] } }

/-- The data source definition `wCfg` serves for `ds1`. -/
def wDsDef : DataSourceDefinition :=
  { submission_date_column := "", client_id_column := "" }

/-- The view generated from `wCfg` with an empty table list. -/
def wView : ViewDefinition :=
  buildViewDefinition wCfg wResolver "ns" "metric_definitions_ds1" [] wNsDefs wDsDef

/-- The view generated from `wCfg` with a base table `tbl`. -/
def wViewT : ViewDefinition :=
  buildViewDefinition wCfg wResolver "ns" "metric_definitions_ds1"
    [{ table := "tbl", channel := "beta" }] wNsDefs wDsDef

/-- The dimension derived from the witness metric. -/
def wDim : Dimension := metricDimension "active_hours" wMetric

/-- A registry identical to `wCfg` except that the data source definition
overrides the submission-date column with `sd`. -/
def cCfg : ConfigLoader :=
  { wCfg with
    get_data_source_definition := fun ds ns =>
      if ds == "ds1" && ns == "ns" then
        some { submission_date_column := "sd", client_id_column := "" }
      else none }

/-- An applicable metric with slug `a` declaring the `sum` statistic. -/
def dMetricA : MetricDefinition :=
  { select_expression := "SUM(a)", data_source := { name := "ds1" },
    type := "scalar", friendly_name := "A", description := "",
    statistics := ["sum"] }

/-- An applicable metric whose slug `a_sum` collides with the name of the
`sum` measure derived from slug `a`. -/
def dMetricASum : MetricDefinition :=
  { select_expression := "SUM(a) + SUM(a)", data_source := { name := "ds1" },
    type := "scalar", friendly_name := "A Sum", description := "",
    statistics := [] }

/-- A registry serving both `a` and `a_sum` on data source `ds1`, used to
exhibit a duplicate entry in the `metrics` set's field list. -/
def dCfg : ConfigLoader :=
  { get_platform_definitions := fun ns =>
      if ns == "ns" then
        some { metrics := { definitions := [("a", dMetricA), ("a_sum", dMetricASum)] } }
      else none,
    get_data_source_definition := fun ds ns =>
      if ds == "ds1" && ns == "ns" then
        some { submission_date_column := "", client_id_column := "" }
      else none,
    get_data_source_sql := fun _ _ => "(SELECT * FROM \x7bdataset\x7d.tbl)",
    get_metric_definition := fun slug ns =>
      if ns == "ns" then
        if slug == "a" then some dMetricA
        else if slug == "a_sum" then some dMetricASum
        else none
      else none,
    render := fun s => s }

/- Claim theorems. -/

/-- Inversion for a successful generation: the three guards passed and the
result is the assembled view record. -/
theorem to_lookml_some_inv {cfg : ConfigLoader} {tv : TableViewResolver}
    {ns name : String} {tables : List TableRef} {v : ViewDefinition}
    (h : to_lookml cfg tv ns name tables = some v) :
    ∃ nsDefs dsDef,
      cfg.get_platform_definitions ns = some nsDefs ∧
      cfg.get_data_source_definition (dataSourceNameOf name) ns = some dsDef ∧
      metricDefinitionsSqlOf cfg nsDefs.metrics.definitions (dataSourceNameOf name) ≠ [] ∧
      v = buildViewDefinition cfg tv ns name tables nsDefs dsDef := by
  unfold to_lookml at h
  split at h
  · exact absurd h (by simp)
  next nsDefs hp =>
    split at h
    · exact absurd h (by simp)
    next dsDef hd =>
      split at h
      · exact absurd h (by simp)
      next hne => exact ⟨nsDefs, dsDef, hp, hd, hne, (Option.some.inj h).symm⟩

/-- C2: For every input where the registry has no platform definitions for
the namespace, or no data-source definition matching the identifier derived
from the view name, or the filtered metric list is empty, `to_lookml`
returns the empty record (modelled `none`) and raises no exception (it is a
total function). -/
theorem C2_missing_config_empty (cfg : ConfigLoader) (tv : TableViewResolver)
    (ns name : String) (tables : List TableRef) :
    (cfg.get_platform_definitions ns = none →
      to_lookml cfg tv ns name tables = none) ∧
    (cfg.get_data_source_definition (dataSourceNameOf name) ns = none →
      to_lookml cfg tv ns name tables = none) ∧
    (∀ nsDefs, cfg.get_platform_definitions ns = some nsDefs →
      filteredMetrics nsDefs.metrics.definitions (dataSourceNameOf name) = [] →
      to_lookml cfg tv ns name tables = none) := by
  refine ⟨?_, ?_, ?_⟩
  · intro h
    simp [to_lookml, h]
  · intro h
    unfold to_lookml
    cases hp : cfg.get_platform_definitions ns with
    | none => rfl
    | some nsDefs => rw [h]
  · intro nsDefs hp hf
    have hm : metricDefinitionsSqlOf cfg nsDefs.metrics.definitions
        (dataSourceNameOf name) = [] := by
      unfold metricDefinitionsSqlOf
      unfold filteredMetrics at hf
      rw [hf, List.map_nil]
    unfold to_lookml
    rw [hp]
    cases hd : cfg.get_data_source_definition (dataSourceNameOf name) ns with
    | none => rfl
    | some dsDef => simp [hm]

/-- Witness for C2: the three degenerate configurations at concrete inputs
all yield the empty record. -/
theorem C2_missing_config_empty_witness :
    (wCfg.get_platform_definitions "nope" = none ∧
      to_lookml wCfg wResolver "nope" "metric_definitions_ds1" [] = none) ∧
    (wCfg.get_data_source_definition (dataSourceNameOf "metric_definitions_other") "ns" = none ∧
      to_lookml wCfg wResolver "ns" "metric_definitions_other" [] = none) ∧
    (wCfgHist.get_platform_definitions "ns" =
        some { metrics := { definitions := [("hist_only", wHistMetric)] } } ∧
      filteredMetrics [("hist_only", wHistMetric)] (dataSourceNameOf "metric_definitions_ds1") = [] ∧
      to_lookml wCfgHist wResolver "ns" "metric_definitions_ds1" [] = none) := by
  refine ⟨⟨by rfl, ?_⟩, ⟨by rfl, ?_⟩, ⟨by rfl, by decide, ?_⟩⟩
  · exact (C2_missing_config_empty wCfg wResolver "nope" "metric_definitions_ds1" []).1 (by rfl)
  · exact (C2_missing_config_empty wCfg wResolver "ns" "metric_definitions_other" []).2.1 (by rfl)
  · exact (C2_missing_config_empty wCfgHist wResolver "ns" "metric_definitions_ds1" []).2.2
      { metrics := { definitions := [("hist_only", wHistMetric)] } } (by rfl) (by decide)

/-- C8: Two invocations of `to_lookml` with identical namespace, view name,
table list, identical registry contents and an identical base-table
resolver return identical records: generation is a deterministic,
side-effect-free function of its inputs. -/
theorem C8_deterministic (cfg cfg' : ConfigLoader) (tv tv' : TableViewResolver)
    (ns ns' name name' : String) (tables tables' : List TableRef)
    (h1 : cfg = cfg') (h2 : tv = tv') (h3 : ns = ns') (h4 : name = name')
    (h5 : tables = tables') :
    to_lookml cfg tv ns name tables = to_lookml cfg' tv' ns' name' tables' := by
  subst h1 h2 h3 h4 h5
  rfl

/-- Witness for C8 at a concrete input. -/
theorem C8_deterministic_witness :
    wCfg = wCfg ∧
    to_lookml wCfg wResolver "ns" "metric_definitions_ds1" [] =
      to_lookml wCfg wResolver "ns" "metric_definitions_ds1" [] :=
  ⟨rfl, C8_deterministic wCfg wCfg wResolver wResolver "ns" "ns"
    "metric_definitions_ds1" "metric_definitions_ds1" [] [] rfl rfl rfl rfl rfl⟩

/-- The assembled view record depends on a non-empty table list only through
the first entry's `table` field. -/
theorem buildViewDefinition_tables_congr (cfg : ConfigLoader)
    (tv : TableViewResolver) (ns name : String)
    (nsDefs : PlatformDefinitions) (dsDef : DataSourceDefinition)
    (t t' : TableRef) (rest rest' : List TableRef) (h : t.table = t'.table) :
    buildViewDefinition cfg tv ns name (t :: rest) nsDefs dsDef =
      buildViewDefinition cfg tv ns name (t' :: rest') nsDefs dsDef := by
  have hb : baseViewLookmlOf tv ns (t :: rest) = baseViewLookmlOf tv ns (t' :: rest') := by
    simp only [baseViewLookmlOf]
    rw [h]
  have hj : joinBaseViewOf (t :: rest) dsDef = joinBaseViewOf (t' :: rest') dsDef := by
    simp only [joinBaseViewOf]
    rw [h]
  simp only [buildViewDefinition]
  rw [hb, hj]

/-- C9: For every table list with at least one entry, `to_lookml` builds the
base view from only the first entry's table reference (later entries and the
supplied channel are ignored), constructing it with channel `release`; the
output depends on the resolver only through that single
`(ns, "base_view", [{table, channel: release}])` call. -/
theorem C9_first_table_release (cfg : ConfigLoader) (tv : TableViewResolver)
    (ns name : String) (t t' : TableRef) (rest rest' : List TableRef)
    (h : t.table = t'.table) :
    to_lookml cfg tv ns name (t :: rest) = to_lookml cfg tv ns name (t' :: rest') ∧
    to_lookml cfg tv ns name (t :: rest) =
      to_lookml cfg tv ns name [{ table := t.table, channel := "release" }] ∧
    (∀ tv' : TableViewResolver,
      tv ns "base_view" [{ table := t.table, channel := "release" }] =
        tv' ns "base_view" [{ table := t.table, channel := "release" }] →
      to_lookml cfg tv ns name (t :: rest) = to_lookml cfg tv' ns name (t :: rest)) := by
  refine ⟨?_, ?_, ?_⟩
  · unfold to_lookml
    cases hp : cfg.get_platform_definitions ns with
    | none => rfl
    | some nsDefs =>
      cases hd : cfg.get_data_source_definition (dataSourceNameOf name) ns with
      | none => rfl
      | some dsDef =>
        by_cases hc : metricDefinitionsSqlOf cfg nsDefs.metrics.definitions
            (dataSourceNameOf name) = []
        · simp [hc]
        · simp only [if_neg hc]
          rw [buildViewDefinition_tables_congr cfg tv ns name nsDefs dsDef t t' rest rest' h]
  · unfold to_lookml
    cases hp : cfg.get_platform_definitions ns with
    | none => rfl
    | some nsDefs =>
      cases hd : cfg.get_data_source_definition (dataSourceNameOf name) ns with
      | none => rfl
      | some dsDef =>
        by_cases hc : metricDefinitionsSqlOf cfg nsDefs.metrics.definitions
            (dataSourceNameOf name) = []
        · simp [hc]
        · simp only [if_neg hc]
          rw [buildViewDefinition_tables_congr cfg tv ns name nsDefs dsDef t
            { table := t.table, channel := "release" } rest [] rfl]
  · intro tv' htv
    unfold to_lookml
    cases hp : cfg.get_platform_definitions ns with
    | none => rfl
    | some nsDefs =>
      cases hd : cfg.get_data_source_definition (dataSourceNameOf name) ns with
      | none => rfl
      | some dsDef =>
        by_cases hc : metricDefinitionsSqlOf cfg nsDefs.metrics.definitions
            (dataSourceNameOf name) = []
        · simp [hc]
        · simp only [if_neg hc]
          have hb : baseViewLookmlOf tv ns (t :: rest) =
              baseViewLookmlOf tv' ns (t :: rest) := by
            simp only [baseViewLookmlOf]
            rw [htv]
          simp only [buildViewDefinition]
          rw [hb]

/-- Witness for C9 at concrete inputs: a second table entry and a different
channel do not change the output. -/
theorem C9_first_table_release_witness :
    ({ table := "tbl", channel := "beta" } : TableRef).table =
      ({ table := "tbl", channel := "nightly" } : TableRef).table ∧
    to_lookml wCfg wResolver "ns" "metric_definitions_ds1"
        [{ table := "tbl", channel := "beta" }, { table := "other", channel := "x" }] =
      to_lookml wCfg wResolver "ns" "metric_definitions_ds1"
        [{ table := "tbl", channel := "nightly" }] := by
  have h := C9_first_table_release wCfg wResolver "ns" "metric_definitions_ds1"
    { table := "tbl", channel := "beta" } { table := "tbl", channel := "nightly" }
    [{ table := "other", channel := "x" }] [] rfl
  exact ⟨rfl, h.1⟩

/-- C10: For every namespace for which the registry has no platform
definitions, `get_dimensions` (and therefore `_get_sets`) fails (modelled
`none`, the attribute-access error) rather than returning an empty list;
only `to_lookml` guards the missing-definitions case with an early empty
return. -/
theorem C10_unguarded_failure (cfg : ConfigLoader) (tv : TableViewResolver)
    (ns name : String) (tables : List TableRef)
    (h : cfg.get_platform_definitions ns = none) :
    get_dimensions cfg ns name = none ∧
    (∀ dims : List Dimension, get_dimensions cfg ns name ≠ some dims) ∧
    _get_sets cfg ns name = none ∧
    to_lookml cfg tv ns name tables = none := by
  have h1 : get_dimensions cfg ns name = none := by
    unfold get_dimensions
    rw [h]
  refine ⟨h1, ?_, ?_, ?_⟩
  · intro dims hc
    rw [h1] at hc
    exact Option.noConfusion hc
  · unfold _get_sets
    rw [h1]
  · simp [to_lookml, h]

/-- Witness for C10 at a concrete namespace with no platform definitions. -/
theorem C10_unguarded_failure_witness :
    wCfg.get_platform_definitions "nope" = none ∧
    get_dimensions wCfg "nope" "metric_definitions_ds1" = none ∧
    _get_sets wCfg "nope" "metric_definitions_ds1" = none ∧
    to_lookml wCfg wResolver "nope" "metric_definitions_ds1" [] = none := by
  have h := C10_unguarded_failure wCfg wResolver "nope" "metric_definitions_ds1" [] (by rfl)
  exact ⟨by rfl, h.1, h.2.2.1, h.2.2.2⟩

/-- The derived-table SQL, fully right-associated: the SELECT header, the
joined metric column fragments, then the remaining clauses. -/
theorem derivedTableSql_assoc (mds bvf : List String)
    (dsd : DataSourceDefinition) (fs jbv : String) :
    derivedTableSql mds bvf dsd fs jbv =
      "\n            SELECT\n                " ++ (String.join mds ++
        ("\n                " ++ (String.intercalate "base." bvf ++
        ("\n                m." ++ (pyOr dsd.client_id_column "client_id" ++
        (" AS client_id,\n                " ++
        (analysisBasisSql (pyOr dsd.submission_date_column "submission_date") ++
        ("\n            FROM\n                " ++ (fs ++
        ("\n            AS m\n            " ++ (jbv ++
        ("\n            " ++ ((if jbv != "" then "AND" else "WHERE") ++
        (dateBoundSql (pyOr dsd.submission_date_column "submission_date") ++
        ("\n            GROUP BY\n                " ++ (String.join bvf ++
        "\n                client_id,\n                analysis_basis\n            ")))))))))))))))) := by
  simp only [derivedTableSql, String.append_assoc]

/-- C1: For every namespace and view name with a successful generation, the
metric slugs emitted as SQL columns in the derived table, the slugs emitted
as dimensions (excluding `client_id` and base fields) and the slugs on the
base-field exclusion list are exactly the slugs of one filtered metric
list, and a metric is on that list iff its select expression is non-empty,
its data source name equals the identifier derived from the view name, and
its type is not `histogram`. -/
theorem C1_filter_sites_agree (cfg : ConfigLoader) (tv : TableViewResolver)
    (ns name : String) (tables : List TableRef) (v : ViewDefinition)
    (nsDefs : PlatformDefinitions)
    (hp : cfg.get_platform_definitions ns = some nsDefs)
    (hv : to_lookml cfg tv ns name tables = some v) :
    metricDefinitionsSqlOf cfg nsDefs.metrics.definitions (dataSourceNameOf name) =
      (filteredMetrics nsDefs.metrics.definitions (dataSourceNameOf name)).map
        (fun p => cfg.render p.2.select_expression ++ " AS " ++ p.1 ++ ",\n") ∧
    (dimensionsFrom nsDefs.metrics.definitions (dataSourceNameOf name)).drop 1 =
      (filteredMetrics nsDefs.metrics.definitions (dataSourceNameOf name)).map
        (fun p => metricDimension p.1 p.2) ∧
    ((dimensionsFrom nsDefs.metrics.definitions (dataSourceNameOf name)).drop 1).map
        (fun d => d.name) =
      (filteredMetrics nsDefs.metrics.definitions (dataSourceNameOf name)).map
        (fun p => p.1) ∧
    ignoreBaseFieldsOf nsDefs.metrics.definitions (dataSourceNameOf name) =
      ["client_id", "submission_date", "submission", "first_run"] ++
        (filteredMetrics nsDefs.metrics.definitions (dataSourceNameOf name)).map
          (fun p => p.1) ∧
    (∀ p : String × MetricDefinition,
      p ∈ filteredMetrics nsDefs.metrics.definitions (dataSourceNameOf name) ↔
        p ∈ nsDefs.metrics.definitions ∧ p.2.select_expression ≠ "" ∧
          p.2.data_source.name = dataSourceNameOf name ∧ p.2.type ≠ "histogram") ∧
    (∃ post, v.derived_table_sql =
      "\n            SELECT\n                " ++
        (String.join (metricDefinitionsSqlOf cfg nsDefs.metrics.definitions
          (dataSourceNameOf name)) ++ post)) ∧
    v.dimensions.take
        (dimensionsFrom nsDefs.metrics.definitions (dataSourceNameOf name)).length =
      dimensionsFrom nsDefs.metrics.definitions (dataSourceNameOf name) := by
  obtain ⟨nsDefs₀, dsDef₀, hp₀, hd₀, hne₀, hveq⟩ := to_lookml_some_inv hv
  rw [hp] at hp₀
  cases Option.some.inj hp₀
  subst hveq
  refine ⟨rfl, rfl, ?_, rfl, ?_, ?_, ?_⟩
  · show ((filteredMetrics nsDefs.metrics.definitions (dataSourceNameOf name)).map
        (fun p => metricDimension p.1 p.2)).map (fun d => d.name) =
      (filteredMetrics nsDefs.metrics.definitions (dataSourceNameOf name)).map
        (fun p => p.1)
    rw [List.map_map]
    rfl
  · intro p
    simp [filteredMetrics, List.mem_filter, and_assoc]
  · refine ⟨"\n                " ++ String.intercalate "base."
        (baseViewFieldsOf (baseViewLookmlOf tv ns tables)
          (ignoreBaseFieldsOf nsDefs.metrics.definitions (dataSourceNameOf name))) ++
      "\n                m." ++ pyOr dsDef₀.client_id_column "client_id" ++
      " AS client_id,\n                " ++
      analysisBasisSql (pyOr dsDef₀.submission_date_column "submission_date") ++
      "\n            FROM\n                " ++
      formatDataset (cfg.get_data_source_sql (dataSourceNameOf name) ns) ns ++
      "\n            AS m\n            " ++ joinBaseViewOf tables dsDef₀ ++
      "\n            " ++
      (if joinBaseViewOf tables dsDef₀ != "" then "AND" else "WHERE") ++
      dateBoundSql (pyOr dsDef₀.submission_date_column "submission_date") ++
      "\n            GROUP BY\n                " ++
      String.join (baseViewFieldsOf (baseViewLookmlOf tv ns tables)
        (ignoreBaseFieldsOf nsDefs.metrics.definitions (dataSourceNameOf name))) ++
      "\n                client_id,\n                analysis_basis\n            ", ?_⟩
    show (buildViewDefinition cfg tv ns name tables nsDefs dsDef₀).derived_table_sql = _
    simp only [buildViewDefinition, derivedTableSql, String.append_assoc]
  · simp only [buildViewDefinition, mergedDimensions]
    cases baseViewLookmlOf tv ns tables with
    | none => exact List.take_length _
    | some lkml => exact List.take_left _ _

/-- Witness for C1 at a concrete registry: the exclusion list is the four
fixed names followed by the filtered slugs. -/
theorem C1_filter_sites_agree_witness :
    wCfg.get_platform_definitions "ns" = some wNsDefs ∧
    to_lookml wCfg wResolver "ns" "metric_definitions_ds1" [] = some wView ∧
    ignoreBaseFieldsOf wNsDefs.metrics.definitions
        (dataSourceNameOf "metric_definitions_ds1") =
      ["client_id", "submission_date", "submission", "first_run"] ++
        (filteredMetrics wNsDefs.metrics.definitions
          (dataSourceNameOf "metric_definitions_ds1")).map (fun p => p.1) := by
  have h := C1_filter_sites_agree wCfg wResolver "ns" "metric_definitions_ds1" [] wView
    wNsDefs (by rfl) (by rfl)
  exact ⟨by rfl, by rfl, h.2.2.2.1⟩

/-- C4: For every view generated with a base table, the output dimension
list is the metric-derived dimensions followed by exactly the base-table
dimensions whose names avoid the exclusion list (`client_id`,
`submission_date`, `submission`, `first_run` and the filtered metric
slugs), each stamped with group label `Base Fields`; every excluded
base-table dimension is absent from the appended part. -/
theorem C4_base_field_merge (cfg : ConfigLoader) (tv : TableViewResolver)
    (ns name : String) (t : TableRef) (rest : List TableRef)
    (nsDefs : PlatformDefinitions) (v : ViewDefinition)
    (baseDims : List Dimension) (ignore : List String) (dims0 : List Dimension)
    (hp : cfg.get_platform_definitions ns = some nsDefs)
    (hb : baseDims =
      (tv ns "base_view" [{ table := t.table, channel := "release" }]).dimensions)
    (hig : ignore = ignoreBaseFieldsOf nsDefs.metrics.definitions (dataSourceNameOf name))
    (hd0 : dims0 = dimensionsFrom nsDefs.metrics.definitions (dataSourceNameOf name))
    (hv : to_lookml cfg tv ns name (t :: rest) = some v) :
    v.dimensions = dims0 ++
      (baseDims.filter fun d => !(ignore.contains d.name)).map
        (fun d => { d with group_label := "Base Fields" }) ∧
    (∀ d ∈ baseDims, d.name ∉ ignore →
      ({ d with group_label := "Base Fields" } : Dimension) ∈
        v.dimensions.drop dims0.length) ∧
    (∀ d ∈ v.dimensions.drop dims0.length,
      d.group_label = "Base Fields" ∧ d.name ∉ ignore) ∧
    ignore = ["client_id", "submission_date", "submission", "first_run"] ++
      (filteredMetrics nsDefs.metrics.definitions (dataSourceNameOf name)).map
        (fun p => p.1) := by
  obtain ⟨nsDefs₀, dsDef₀, hp₀, hd₀, hne₀, hveq⟩ := to_lookml_some_inv hv
  rw [hp] at hp₀
  cases Option.some.inj hp₀
  subst hveq hig hd0 hb
  have heq : (buildViewDefinition cfg tv ns name (t :: rest) nsDefs dsDef₀).dimensions =
      dimensionsFrom nsDefs.metrics.definitions (dataSourceNameOf name) ++
        (((tv ns "base_view" [{ table := t.table, channel := "release" }]).dimensions.filter
            fun d => !((ignoreBaseFieldsOf nsDefs.metrics.definitions
              (dataSourceNameOf name)).contains d.name)).map
          (fun d => { d with group_label := "Base Fields" })) := by
    simp only [buildViewDefinition, baseViewLookmlOf, mergedDimensions]
  refine ⟨heq, ?_, ?_, rfl⟩
  · intro d hd hn
    rw [heq, List.drop_left]
    refine List.mem_map.mpr ⟨d, List.mem_filter.mpr ⟨hd, ?_⟩, rfl⟩
    have hc : (ignoreBaseFieldsOf nsDefs.metrics.definitions
        (dataSourceNameOf name)).contains d.name = false := by
      rw [Bool.eq_false_iff]
      intro hct
      exact hn (List.elem_iff.mp hct)
    rw [hc]
    rfl
  · intro d hd
    rw [heq, List.drop_left] at hd
    obtain ⟨e, he, rfl⟩ := List.mem_map.mp hd
    obtain ⟨hmem, hpred⟩ := List.mem_filter.mp he
    refine ⟨rfl, ?_⟩
    intro hmem2
    rw [Bool.not_eq_true'] at hpred
    have hmem2' : e.name ∈ ignoreBaseFieldsOf nsDefs.metrics.definitions
        (dataSourceNameOf name) := hmem2
    have ht : (ignoreBaseFieldsOf nsDefs.metrics.definitions
        (dataSourceNameOf name)).contains e.name = true :=
      List.elem_eq_true_of_mem hmem2'
    rw [hpred] at ht
    exact Bool.noConfusion ht

/-- Witness for C4 at a concrete input with one base table. -/
theorem C4_base_field_merge_witness :
    to_lookml wCfg wResolver "ns" "metric_definitions_ds1"
        [{ table := "tbl", channel := "beta" }] = some wViewT ∧
    wViewT.dimensions =
      dimensionsFrom wNsDefs.metrics.definitions (dataSourceNameOf "metric_definitions_ds1") ++
        (((wResolver "ns" "base_view" [{ table := "tbl", channel := "release" }]).dimensions.filter
            fun d => !((ignoreBaseFieldsOf wNsDefs.metrics.definitions
              (dataSourceNameOf "metric_definitions_ds1")).contains d.name)).map
          (fun d => { d with group_label := "Base Fields" })) := by
  have h := C4_base_field_merge wCfg wResolver "ns" "metric_definitions_ds1"
    { table := "tbl", channel := "beta" } [] wNsDefs wViewT
    (wResolver "ns" "base_view" [{ table := "tbl", channel := "release" }]).dimensions
    (ignoreBaseFieldsOf wNsDefs.metrics.definitions (dataSourceNameOf "metric_definitions_ds1"))
    (dimensionsFrom wNsDefs.metrics.definitions (dataSourceNameOf "metric_definitions_ds1"))
    (by rfl) rfl rfl rfl (by rfl)
  exact ⟨by rfl, h.1⟩

/-- `get_measures` is the per-dimension flat map of the per-statistic
measure lists: the inline measure records of the source coincide with the
named builders, and the statistics-nonempty guard is redundant. -/
theorem get_measures_eq (cfg : ConfigLoader) (ns : String)
    (dims : List Dimension) :
    get_measures cfg ns dims = dims.flatMap (fun dimension =>
      match cfg.get_metric_definition dimension.name ns with
      | none => []
      | some m => m.statistics.flatMap (statisticMeasures dimension)) := by
  unfold get_measures
  congr 1
  funext dimension
  cases cfg.get_metric_definition dimension.name ns with
  | none => rfl
  | some metric =>
    dsimp only
    by_cases hs : metric.statistics = []
    · simp [hs]
    · have hcond : (metric.statistics != []) = true := bne_iff_ne.mpr hs
      rw [if_pos hcond]
      congr 1
      funext s
      by_cases h1 : s = "sum"
      · subst h1
        rfl
      · by_cases h2 : s = "client_count"
        · subst h2
          rfl
        · have b1 : (s == "sum") = false := beq_eq_false_iff_ne.mpr h1
          have b2 : (s == "client_count") = false := beq_eq_false_iff_ne.mpr h2
          simp [statisticMeasures, b1, b2]

/-- One statistics list contributes exactly one measure per recognized slug
(`sum` or `client_count`) and none for any other slug. -/
theorem length_flatMap_statisticMeasures (d : Dimension) (l : List String) :
    (l.flatMap (statisticMeasures d)).length =
      (l.filter fun s => s == "sum" || s == "client_count").length := by
  induction l with
  | nil => rfl
  | cons s ss ih =>
    rw [List.flatMap_cons, List.filter_cons]
    by_cases h1 : s = "sum"
    · subst h1
      simp [statisticMeasures, ih]
    · by_cases h2 : s = "client_count"
      · subst h2
        simp [statisticMeasures, ih]
      · have b1 : (s == "sum") = false := beq_eq_false_iff_ne.mpr h1
        have b2 : (s == "client_count") = false := beq_eq_false_iff_ne.mpr h2
        simp [statisticMeasures, b1, b2, ih]

/-- C5: For every dimension whose name resolves to a metric definition with
declared statistics, `get_measures` emits exactly one measure per statistic
slug `sum` (named `<name>_sum`, type `sum`) and per slug `client_count`
(named `<name>_client_count`, type `count_distinct`), and nothing for any
other slug: a metric with statistics `[sum, client_count]` yields exactly
those two measures, and the measure count equals the count of recognized
statistic slugs. -/
theorem C5_statistic_measures (cfg : ConfigLoader) (ns : String)
    (dims : List Dimension) (d : Dimension) (metric : MetricDefinition)
    (hm : cfg.get_metric_definition d.name ns = some metric) :
    get_measures cfg ns dims = dims.flatMap (fun dimension =>
      match cfg.get_metric_definition dimension.name ns with
      | none => []
      | some m => m.statistics.flatMap (statisticMeasures dimension)) ∧
    get_measures cfg ns [d] = metric.statistics.flatMap (statisticMeasures d) ∧
    (sumMeasure d).name = d.name ++ "_sum" ∧
    (sumMeasure d).type = "sum" ∧
    (clientCountMeasure d).name = d.name ++ "_client_count" ∧
    (clientCountMeasure d).type = "count_distinct" ∧
    (metric.statistics = ["sum", "client_count"] →
      get_measures cfg ns [d] = [sumMeasure d, clientCountMeasure d]) ∧
    (∀ s : String, s ≠ "sum" → s ≠ "client_count" → statisticMeasures d s = []) ∧
    (get_measures cfg ns [d]).length =
      (metric.statistics.filter fun s => s == "sum" || s == "client_count").length := by
  have hsingle : get_measures cfg ns [d] =
      metric.statistics.flatMap (statisticMeasures d) := by
    rw [get_measures_eq]
    simp [hm]
  refine ⟨get_measures_eq cfg ns dims, hsingle, ?_, rfl, ?_, rfl, ?_, ?_, ?_⟩
  · show d.name ++ "_" ++ "sum" = d.name ++ "_sum"
    rw [String.append_assoc]
    rfl
  · show d.name ++ "_" ++ "client_count" = d.name ++ "_client_count"
    rw [String.append_assoc]
    rfl
  · intro hstats
    rw [hsingle, hstats]
    rfl
  · intro s h1 h2
    have b1 : (s == "sum") = false := beq_eq_false_iff_ne.mpr h1
    have b2 : (s == "client_count") = false := beq_eq_false_iff_ne.mpr h2
    simp [statisticMeasures, b1, b2]
  · rw [hsingle]
    exact length_flatMap_statisticMeasures d metric.statistics

/-- Witness for C5 at the concrete registry: the witness metric declares
`[sum, client_count, median]`, and exactly two measures result (the
unrecognized `median` is skipped). -/
theorem C5_statistic_measures_witness :
    wCfg.get_metric_definition wDim.name "ns" = some wMetric ∧
    get_measures wCfg "ns" [wDim] =
      wMetric.statistics.flatMap (statisticMeasures wDim) ∧
    (get_measures wCfg "ns" [wDim]).length = 2 := by
  have h := C5_statistic_measures wCfg "ns" [wDim] wDim wMetric (by rfl)
  refine ⟨by rfl, h.2.1, ?_⟩
  rw [h.2.2.2.2.2.2.2.2]
  decide

/-- C6 (amended): every generated view contains exactly one set, named
`metrics`, whose field list is the names of the metric-derived dimensions
(the dimensions before base-table fields are appended) except `client_id`,
followed by the names of the measures computed from those metric-derived
dimensions; when the table list is empty this equals (all view dimension
names except `client_id`) followed by (all view measure names). -/
theorem C6_metrics_set (cfg : ConfigLoader) (tv : TableViewResolver)
    (ns name : String) (tables : List TableRef)
    (nsDefs : PlatformDefinitions) (v : ViewDefinition) (dims0 : List Dimension)
    (hp : cfg.get_platform_definitions ns = some nsDefs)
    (hd0 : dims0 = dimensionsFrom nsDefs.metrics.definitions (dataSourceNameOf name))
    (hv : to_lookml cfg tv ns name tables = some v) :
    v.sets = [
      { name := "metrics",
        fields := ((dims0.filter fun d => d.name != "client_id").map fun d => d.name) ++
          (get_measures cfg ns dims0).map fun m => m.name }] ∧
    (tables = [] →
      v.sets = [
        { name := "metrics",
          fields := ((v.dimensions.filter fun d => d.name != "client_id").map
              fun d => d.name) ++
            v.measures.map fun m => m.name }]) := by
  obtain ⟨nsDefs₀, dsDef₀, hp₀, hd₀, hne₀, hveq⟩ := to_lookml_some_inv hv
  rw [hp] at hp₀
  cases Option.some.inj hp₀
  subst hveq hd0
  constructor
  · rfl
  · intro ht
    subst ht
    rfl

/-- Witness for C6 at a concrete input with an empty table list. -/
theorem C6_metrics_set_witness :
    to_lookml wCfg wResolver "ns" "metric_definitions_ds1" [] = some wView ∧
    wView.sets = [
      { name := "metrics",
        fields := ((wView.dimensions.filter fun d => d.name != "client_id").map
            fun d => d.name) ++
          wView.measures.map fun m => m.name }] := by
  have h := C6_metrics_set wCfg wResolver "ns" "metric_definitions_ds1" [] wNsDefs wView
    (dimensionsFrom wNsDefs.metrics.definitions (dataSourceNameOf "metric_definitions_ds1"))
    (by rfl) rfl (by rfl)
  exact ⟨by rfl, h.2 rfl⟩

/-- C6 counterexample: with a base table and the applicable metric slugs
`a` (statistic `sum`) and `a_sum`, the single `metrics` set has field list
`[a, a_sum, a_sum]`: it omits the merged base dimension `country`, so it is
not (all dimension names except `client_id`) followed by (all measure
names), and it contains `a_sum` twice (the dimension of slug `a_sum` and
the `sum` measure of slug `a`), so it is not duplicate-free. -/
theorem C6_counterexample :
    (to_lookml dCfg wResolver "ns" "metric_definitions_ds1"
        [{ table := "tbl", channel := "beta" }]).map
      (fun v => ((v.sets.map fun s => s.fields),
        ((v.dimensions.filter fun d => d.name != "client_id").map fun d => d.name) ++
          v.measures.map fun m => m.name)) =
      some ([["a", "a_sum", "a_sum"]], ["a", "a_sum", "country", "a_sum"]) ∧
    (["a", "a_sum", "a_sum"] : List String) ≠ ["a", "a_sum", "country", "a_sum"] ∧
    ¬ (["a", "a_sum", "a_sum"] : List String).Nodup := by
  exact ⟨by decide, by decide, by decide⟩

/-- C7: every generated view carries exactly one parameter descriptor,
`aggregate_metrics_by`, of type `unquoted` with default `day` and the six
allowed values day, week, month, quarter, year, overall; the derived-table
SQL contains the `analysis_basis` conditional, whose explicit branch
conditions are exactly day, week, month, quarter and year, with the final
else branch yielding NULL (so `overall` matches no explicit branch). -/
theorem C7_aggregate_parameter (cfg : ConfigLoader) (tv : TableViewResolver)
    (ns name : String) (tables : List TableRef)
    (dsDef : DataSourceDefinition) (v : ViewDefinition)
    (hd : cfg.get_data_source_definition (dataSourceNameOf name) ns = some dsDef)
    (hv : to_lookml cfg tv ns name tables = some v) :
    v.parameters = [
      { name := "aggregate_metrics_by",
        label := "Aggregate Client Metrics Per", type := "unquoted",
        default_value := "day",
        allowed_values :=
          [{ label := "Per Day", value := "day" },
           { label := "Per Week", value := "week" },
           { label := "Per Month", value := "month" },
           { label := "Per Quarter", value := "quarter" },
           { label := "Per Year", value := "year" },
           { label := "Overall", value := "overall" }] }] ∧
    (∃ pre post, v.derived_table_sql =
      pre ++ (analysisBasisSql (pyOr dsDef.submission_date_column "submission_date") ++
        post)) ∧
    (∀ c : String, analysisBasisSql c =
      "\x7b% if aggregate_metrics_by._parameter_value == 'day' %\x7d" ++
      "\n                m." ++ c ++ " AS analysis_basis\n                " ++
      "\x7b% elsif aggregate_metrics_by._parameter_value == 'week'  %\x7d" ++
      "\n                (FORMAT_DATE(\n                    '%F',\n                    DATE_TRUNC(m." ++
      c ++ ",\n                    WEEK(MONDAY)))\n                ) AS analysis_basis\n                " ++
      "\x7b% elsif aggregate_metrics_by._parameter_value == 'month'  %\x7d" ++
      "\n                (FORMAT_DATE(\n                    '%Y-%m',\n                    m." ++
      c ++ ")\n                ) AS analysis_basis\n                " ++
      "\x7b% elsif aggregate_metrics_by._parameter_value == 'quarter'  %\x7d" ++
      "\n                (FORMAT_DATE(\n                    '%Y-%m',\n                    DATE_TRUNC(m." ++
      c ++ ",\n                    QUARTER))\n                ) AS analysis_basis\n                " ++
      "\x7b% elsif aggregate_metrics_by._parameter_value == 'year'  %\x7d" ++
      "\n                (EXTRACT(\n                    YEAR FROM m." ++
      c ++ ")\n                ) AS analysis_basis\n                " ++
      "\x7b% else %\x7d" ++ "\n                NULL as analysis_basis\n                " ++
      "\x7b% endif %\x7d") := by
  obtain ⟨nsDefs₀, dsDef₀, hp₀, hd₀, hne₀, hveq⟩ := to_lookml_some_inv hv
  rw [hd] at hd₀
  cases Option.some.inj hd₀
  subst hveq
  refine ⟨rfl, ?_, ?_⟩
  · refine ⟨"\n            SELECT\n                " ++
      String.join (metricDefinitionsSqlOf cfg nsDefs₀.metrics.definitions
        (dataSourceNameOf name)) ++
      "\n                " ++ String.intercalate "base."
        (baseViewFieldsOf (baseViewLookmlOf tv ns tables)
          (ignoreBaseFieldsOf nsDefs₀.metrics.definitions (dataSourceNameOf name))) ++
      "\n                m." ++ pyOr dsDef.client_id_column "client_id" ++
      " AS client_id,\n                ",
      "\n            FROM\n                " ++
      formatDataset (cfg.get_data_source_sql (dataSourceNameOf name) ns) ns ++
      "\n            AS m\n            " ++ joinBaseViewOf tables dsDef ++
      "\n            " ++
      (if joinBaseViewOf tables dsDef != "" then "AND" else "WHERE") ++
      dateBoundSql (pyOr dsDef.submission_date_column "submission_date") ++
      "\n            GROUP BY\n                " ++
      String.join (baseViewFieldsOf (baseViewLookmlOf tv ns tables)
        (ignoreBaseFieldsOf nsDefs₀.metrics.definitions (dataSourceNameOf name))) ++
      "\n                client_id,\n                analysis_basis\n            ", ?_⟩
    show (buildViewDefinition cfg tv ns name tables nsDefs₀ dsDef).derived_table_sql = _
    simp only [buildViewDefinition, derivedTableSql, String.append_assoc]
  · intro c
    simp only [analysisBasisSql, String.append_assoc]
    rfl

/-- Witness for C7 at a concrete input. -/
theorem C7_aggregate_parameter_witness :
    wCfg.get_data_source_definition (dataSourceNameOf "metric_definitions_ds1") "ns" =
      some wDsDef ∧
    to_lookml wCfg wResolver "ns" "metric_definitions_ds1" [] = some wView ∧
    wView.parameters = [
      { name := "aggregate_metrics_by",
        label := "Aggregate Client Metrics Per", type := "unquoted",
        default_value := "day",
        allowed_values :=
          [{ label := "Per Day", value := "day" },
           { label := "Per Week", value := "week" },
           { label := "Per Month", value := "month" },
           { label := "Per Quarter", value := "quarter" },
           { label := "Per Year", value := "year" },
           { label := "Overall", value := "overall" }] }] := by
  have h := C7_aggregate_parameter wCfg wResolver "ns" "metric_definitions_ds1" []
    wDsDef wView (by rfl) (by rfl)
  exact ⟨by rfl, by rfl, h.1⟩

/-- C3 (amended): with an empty table list the derived-table SQL introduces
the date-bounding clause with WHERE (not AND), and that clause bounds the
literal column `m.submission_date`; the configured submission-date column
(or its default) appears in the clause only inside the `date_start` and
`date_end` filter tags. -/
theorem C3_where_bound (cfg : ConfigLoader) (tv : TableViewResolver)
    (ns name : String) (dsDef : DataSourceDefinition) (v : ViewDefinition)
    (hd : cfg.get_data_source_definition (dataSourceNameOf name) ns = some dsDef)
    (hv : to_lookml cfg tv ns name [] = some v) :
    (∃ pre post, v.derived_table_sql =
      pre ++ ("WHERE" ++
        (dateBoundSql (pyOr dsDef.submission_date_column "submission_date") ++ post))) ∧
    (∀ c : String, dateBoundSql c =
      " m.submission_date BETWEEN\n                SAFE_CAST(\n                    \x7b% date_start " ++
        c ++
        " %\x7d AS DATE\n                ) AND\n                SAFE_CAST(\n                    \x7b% date_end " ++
        c ++ " %\x7d AS DATE\n                )") := by
  obtain ⟨nsDefs₀, dsDef₀, hp₀, hd₀, hne₀, hveq⟩ := to_lookml_some_inv hv
  rw [hd] at hd₀
  cases Option.some.inj hd₀
  subst hveq
  constructor
  · refine ⟨"\n            SELECT\n                " ++
      String.join (metricDefinitionsSqlOf cfg nsDefs₀.metrics.definitions
        (dataSourceNameOf name)) ++
      "\n                " ++ String.intercalate "base."
        (baseViewFieldsOf (baseViewLookmlOf tv ns [])
          (ignoreBaseFieldsOf nsDefs₀.metrics.definitions (dataSourceNameOf name))) ++
      "\n                m." ++ pyOr dsDef.client_id_column "client_id" ++
      " AS client_id,\n                " ++
      analysisBasisSql (pyOr dsDef.submission_date_column "submission_date") ++
      "\n            FROM\n                " ++
      formatDataset (cfg.get_data_source_sql (dataSourceNameOf name) ns) ns ++
      "\n            AS m\n            " ++ joinBaseViewOf [] dsDef ++
      "\n            ",
      "\n            GROUP BY\n                " ++
      String.join (baseViewFieldsOf (baseViewLookmlOf tv ns [])
        (ignoreBaseFieldsOf nsDefs₀.metrics.definitions (dataSourceNameOf name))) ++
      "\n                client_id,\n                analysis_basis\n            ", ?_⟩
    show (buildViewDefinition cfg tv ns name [] nsDefs₀ dsDef).derived_table_sql = _
    simp only [buildViewDefinition, derivedTableSql, String.append_assoc]
    rfl
  · intro c
    rfl

/-- Witness for C3's amended statement at a concrete input. -/
theorem C3_where_bound_witness :
    wCfg.get_data_source_definition (dataSourceNameOf "metric_definitions_ds1") "ns" =
      some wDsDef ∧
    to_lookml wCfg wResolver "ns" "metric_definitions_ds1" [] = some wView ∧
    (∃ pre post, wView.derived_table_sql =
      pre ++ ("WHERE" ++
        (dateBoundSql (pyOr wDsDef.submission_date_column "submission_date") ++ post))) := by
  have h := C3_where_bound wCfg wResolver "ns" "metric_definitions_ds1" wDsDef wView
    (by rfl) (by rfl)
  exact ⟨by rfl, by rfl, h.1⟩

/-- C3 counterexample: with the submission-date column overridden to `sd`,
the generated SQL still bounds `m.submission_date` after WHERE and never
bounds `m.sd`, contradicting the claim that the bounding clause uses the
configured submission-date column. -/
theorem C3_counterexample :
    cCfg.get_data_source_definition (dataSourceNameOf "metric_definitions_ds1") "ns" =
      some { submission_date_column := "sd", client_id_column := "" } ∧
    (to_lookml cCfg wResolver "ns" "metric_definitions_ds1" []).map
      (fun v => (containsStr v.derived_table_sql "WHERE m.submission_date BETWEEN",
        containsStr v.derived_table_sql "m.sd BETWEEN")) = some (true, false) := by
  exact ⟨by rfl, by decide⟩
